import Mathlib

/-!
Verification development for the DawnoTemu mobile client's synchronization
and caching layer (`src/unnamed/part_009`, the enhanced voice service, and
`src/services/authService.js`).  JavaScript functions are shallowly embedded
as pure Lean functions; mutable module state (the AsyncStorage-backed
registry, the pending-operation queue, the story catalog cache) is threaded
explicitly; network, filesystem and token-refresh outcomes are supplied by
environment records, matching the single-threaded event-loop semantics of
the source (every `await` suspension sees the environment fixed for the
duration of one call).
-/

/-- Fetch options as far as the sync layer inspects them: only the HTTP
method matters to the embedded logic (`part_009` never branches on other
option fields). -/
structure ReqOptions where
  method : Option String := none
deriving Repr, DecidableEq

/-- A persisted entry of the offline operation queue
(`queue.push({endpoint, options, timestamp: Date.now()})`,
`part_009` lines 190-194). -/
structure QueuedOp where
  endpoint : String
  options : ReqOptions
  timestamp : Nat
deriving Repr, DecidableEq

/-- One token of the wildcard patterns used by `queueOperationIfOffline`:
a literal character, or `*`, which the source rewrites to the regex
fragment `[^/]+` (one or more non-slash characters). -/
inductive RegTok where
  | lit (c : Char)
  | star
deriving Repr, DecidableEq

/-- Anchored-at-start regex matching for the compiled wildcard pattern:
`reMatch ps xs` holds when some prefix of `xs` matches the token list
`ps`, with `star` consuming one or more non-`'/'` characters
(backtracking disjunction mirrors the regex engine's search). -/
def reMatch : List RegTok → List Char → Bool
  | [], _ => true
  | RegTok.lit _ :: _, [] => false
  | RegTok.lit c :: ps, x :: xs => x = c && reMatch ps xs
  | RegTok.star :: _, [] => false
  | RegTok.star :: ps, x :: xs =>
      if x = '/' then false else (reMatch ps xs || reMatch (RegTok.star :: ps) xs)

/-- Unanchored search, as performed by JavaScript `RegExp.prototype.test`:
try to match at every suffix of the subject. -/
def reSearch (ps : List RegTok) : List Char → Bool
  | [] => reMatch ps []
  | x :: xs => reMatch ps (x :: xs) || reSearch ps (xs)

/-- Embedding of `op.replace(/\*/g, '[^/]+')` followed by `new RegExp(...).test(endpoint)`
(`part_009` lines 176-180): compile the wildcard pattern and search the
endpoint, unanchored. -/
def reTest (pat subject : String) : Bool :=
  reSearch (pat.data.map fun c => if c = '*' then RegTok.star else RegTok.lit c) subject.data

/-- The allow-list of queueable endpoint patterns (`part_009` line 174). -/
def queueableOperations : List String :=
  ["/voices", "/voices/*/stories/*/audio"]

/-- Embedding of `queueableOperations.some(op => regex.test(endpoint))`
(`part_009` lines 176-180). -/
def isQueueable (endpoint : String) : Bool :=
  queueableOperations.any fun op => reTest op endpoint

/-- Embedding of `queueOperationIfOffline` (`part_009` lines 172-201): append the
operation to the persisted queue when the endpoint matches a queueable
pattern, otherwise leave the queue untouched.  `now` is `Date.now()`. -/
def queueOperationIfOffline (endpoint : String) (options : ReqOptions) (now : Nat)
    (queue : List QueuedOp) : List QueuedOp :=
  if isQueueable endpoint then queue ++ [⟨endpoint, options, now⟩] else queue

/-- Retention window used by the drain pass: 24 hours in milliseconds
(`86400000`, `part_009` line 222). -/
def retentionMs : Nat := 86400000

/-- Embedding of `Date.now() - operation.timestamp > 86400000` (`part_009` line 222). -/
def opExpired (now : Nat) (op : QueuedOp) : Bool :=
  decide (retentionMs < now - op.timestamp)

/-- The `for (const operation of queue)` body of `processOfflineQueue`
(`part_009` lines 218-231), folded over the list: returns the sequence of
operations actually replayed over the network (in order), the new queue of
kept entries, and the success count.  `net op = true` models
`apiRequest(endpoint, options)` resolving with `success: true`. -/
def drainPass (net : QueuedOp → Bool) (now : Nat) :
    List QueuedOp → List QueuedOp × List QueuedOp × Nat
  | [] => ([], [], 0)
  | op :: rest =>
      if opExpired now op then drainPass net now rest
      else
        let r := drainPass net now rest
        if net op then (op :: r.1, r.2.1, r.2.2 + 1)
        else (op :: r.1, op :: r.2.1, r.2.2)

/-- Outcome of `processOfflineQueue`: the network calls it issued, the value
written back to `PENDING_OPERATIONS` (`none` when the early `return` for an
empty/absent queue skips the write), and the reported counts. -/
structure DrainOutcome where
  calls : List QueuedOp
  persisted : Option (List QueuedOp)
  processed : Nat
  remaining : Option Nat
deriving Repr, DecidableEq

/-- Embedding of `processOfflineQueue` (`part_009` lines 206-248).  The stored queue is
taken already parsed; `if (!queue.length) return { processed: 0 }` is the
`persisted = none` branch.  Mid-pass writes that `apiRequest` may perform
through `queueOperationIfOffline` are overwritten by the unconditional
final `AsyncStorage.setItem(..., JSON.stringify(newQueue))`, so `persisted`
is that final value. -/
def processOfflineQueue (net : QueuedOp → Bool) (now : Nat)
    (queue : List QueuedOp) : DrainOutcome :=
  if queue.isEmpty then ⟨[], none, 0, none⟩
  else
    let r := drainPass net now queue
    ⟨r.1, some r.2.1, r.2.2, some r.2.1.length⟩

/-- A value of the per-story registry record
`{ localUri, timestamp }` stored under `audioInfo[voiceId][storyId]`
(`storeAudioInfo`, `part_009` lines 561-564).  `localUri` is optional
because `getStoredAudioInfo` explicitly guards `storedInfo &&
storedInfo.localUri` before trusting it. -/
structure AudioInfo where
  localUri : Option String
  timestamp : Nat
deriving Repr, DecidableEq

/-- The JSON object `audioInfo[voiceId]`: storyId-keyed map, embedded as an
association list with unique keys (JSON object semantics). -/
abbrev VoiceMap := List (String × AudioInfo)

/-- The parsed `DOWNLOADED_AUDIO` blob: voiceId-keyed map of story maps. -/
abbrev Registry := List (String × VoiceMap)

/-- Reading `obj[key]` on a JSON object, embedded on association lists. -/
def lookupKey {β : Type} (k : String) : List (String × β) → Option β
  | [] => none
  | p :: rest => if p.1 = k then some p.2 else lookupKey k rest

/-- Deletion `delete obj[key]` on a JSON object, embedded on association lists. -/
def eraseKey {β : Type} (k : String) (l : List (String × β)) : List (String × β) :=
  l.filter fun p => p.1 ≠ k

/-- Assignment `obj[key] = value` on a JSON object: replace in place when the key is
present, append otherwise. -/
def setKey {β : Type} (k : String) (v : β) (l : List (String × β)) : List (String × β) :=
  if (lookupKey k l).isSome then l.map (fun p => if p.1 = k then (k, v) else p)
  else l ++ [(k, v)]

/-- Embedding of `removeAudioReference` (`part_009` lines 617-640): delete the
`[voiceId][storyId]` entry, then delete the whole voice sub-map when it
became empty; no-op when the voice is absent. -/
def removeAudioReference (voiceId storyId : String) (reg : Registry) : Registry :=
  match lookupKey voiceId reg with
  | none => reg
  | some m =>
      let m' := if (lookupKey storyId m).isSome then eraseKey storyId m else m
      if m'.isEmpty then eraseKey voiceId reg else setKey voiceId m' reg

/-- Embedding of `getStoredAudioInfo` (`part_009` lines 585-610): look the entry up; when
it carries a `localUri`, verify the file still exists on disk
(`FileSystem.getInfoAsync`) and prune the reference when it does not.
Returns the surviving entry (or `none`) together with the updated
registry.  `fs` is the filesystem existence oracle. -/
def getStoredAudioInfo (fs : String → Bool) (voiceId storyId : String)
    (reg : Registry) : Option AudioInfo × Registry :=
  match (lookupKey voiceId reg).bind (fun m => lookupKey storyId m) with
  | none => (none, reg)
  | some info =>
      match info.localUri with
      | none => (some info, reg)
      | some uri =>
          if fs uri then (some info, reg)
          else (none, removeAudioReference voiceId storyId reg)

/-- Result shape of `checkAudioExists`: `{success, exists, localUri?,
fromCache?}`. -/
structure CheckResult where
  success : Bool
  existsFlag : Bool
  localUri : Option String := none
  fromCache : Option Bool := none
deriving Repr, DecidableEq

/-- Embedding of `checkAudioExists` (`part_009` lines 391-433): trust the registry entry
only after re-verifying its file on disk; otherwise fall through to a
server `HEAD` check when online (`headOk` models that `apiRequest`
resolving with `success: true`), and report `exists:false` when offline.
Returns the result together with the registry as updated by the pruning
inside `getStoredAudioInfo`. -/
def checkAudioExists (fs : String → Bool) (online headOk : Bool)
    (voiceId storyId : String) (reg : Registry) : CheckResult × Registry :=
  let r := getStoredAudioInfo fs voiceId storyId reg
  match r.1 with
  | some info =>
      match info.localUri with
      | some uri =>
          if fs uri then (⟨true, true, some uri, some true⟩, r.2)
          else if online then (⟨true, headOk, none, some false⟩, r.2)
          else (⟨true, false, none, none⟩, r.2)
      | none =>
          if online then (⟨true, headOk, none, some false⟩, r.2)
          else (⟨true, false, none, none⟩, r.2)
  | none =>
      if online then (⟨true, headOk, none, some false⟩, r.2)
      else (⟨true, false, none, none⟩, r.2)

/-- Loop body of `getStoredAudioForVoice` (`part_009` lines 657-669):
iterate over the snapshot of the voice's sub-map, keep entries whose file
still exists, prune (via `removeAudioReference`) entries whose file is
gone, and skip entries without a `localUri`. -/
def validateVoiceMap (fs : String → Bool) (voiceId : String) :
    VoiceMap → Registry → VoiceMap × Registry
  | [], reg => ([], reg)
  | (storyId, info) :: rest, reg =>
      match info.localUri with
      | none => validateVoiceMap fs voiceId rest reg
      | some uri =>
          if fs uri then
            let r := validateVoiceMap fs voiceId rest reg
            ((storyId, info) :: r.1, r.2)
          else validateVoiceMap fs voiceId rest (removeAudioReference voiceId storyId reg)

/-- Embedding of `getStoredAudioForVoice` (`part_009` lines 647-676): returns the
validated storyId map for the voice together with the pruned registry. -/
def getStoredAudioForVoice (fs : String → Bool) (voiceId : String)
    (reg : Registry) : VoiceMap × Registry :=
  match lookupKey voiceId reg with
  | none => ([], reg)
  | some m => validateVoiceMap fs voiceId m reg

/-- A story descriptor as `markStoriesWithLocalAudio` sees it: the `id`
field it reads, the remaining fields it spreads through untouched, and the
two annotation fields it writes.  A JavaScript property set to `undefined`
is embedded as `none`. -/
structure Story where
  id : String
  fields : List (String × String)
  hasLocalAudio : Option Bool := none
  localAudioUri : Option String := none
deriving Repr, DecidableEq

/-- The `stories.map(story => ({...story, hasLocalAudio: !!audioInfo,
localAudioUri: audioInfo?.localUri}))` body of `markStoriesWithLocalAudio`
(`part_009` lines 688-697), with `voiceAudio` the validated map. -/
def markStoriesCore (voiceAudio : VoiceMap) (stories : List Story) : List Story :=
  stories.map fun story =>
    let audioInfo := lookupKey story.id voiceAudio
    { story with
      hasLocalAudio := some audioInfo.isSome
      localAudioUri := audioInfo.bind (·.localUri) }

/-- Embedding of `markStoriesWithLocalAudio` (`part_009` lines 684-702): annotate each
story from the validated voice map; the `catch` branch returns the input
list unmodified.  The awaited `getStoredAudioForVoice` outcome is passed as
an `Except` so the `catch` path is part of the embedding. -/
def markStoriesWithLocalAudio (lookupOutcome : Except Unit VoiceMap)
    (stories : List Story) : List Story :=
  match lookupOutcome with
  | Except.ok voiceAudio => markStoriesCore voiceAudio stories
  | Except.error _ => stories

/-- Cache expiration window: 24 hours in milliseconds (`part_009` line 32). -/
def cacheExpirationMs : Nat := 86400000

/-- State of the story catalog cache: `CACHED_STORIES` plus
`LAST_STORIES_FETCH` (absent before any successful fetch).  Story payloads
are opaque strings. -/
structure CatalogState where
  cached : List String
  lastFetch : Option Nat
deriving Repr, DecidableEq

/-- Embedding of `isCacheValid` (`part_009` lines 328-342): no stored fetch time means
invalid; otherwise valid iff `now - lastFetch < CACHE_EXPIRATION`. -/
def isCacheValid (now : Nat) (st : CatalogState) : Bool :=
  match st.lastFetch with
  | none => false
  | some t => decide (now - t < cacheExpirationMs)

/-- Environment of one `getStories` call: connectivity, and the outcome of
`apiRequest('/stories')` would it be issued (`some payload` for a
successful fetch with `result.data || []` already applied, `none` for an
unsuccessful result). -/
structure CatalogEnv where
  online : Bool
  fetchOutcome : Option (List String)
deriving Repr, DecidableEq

/-- Observable outcome of one `getStories` call: the returned list and
`fromCache` flag, whether a network fetch was issued, whether that fetch
succeeded, and the catalog state after the call. -/
structure CatalogStep where
  stories : List String
  fromCache : Bool
  fetched : Bool
  fetchedOk : Bool
  state : CatalogState
deriving Repr, DecidableEq

/-- Embedding of `getStories` (`part_009` lines 349-383): fetch only when online and
(`forceRefresh` or the cache is invalid); a successful fetch overwrites the
cached record (`cacheStories`) and returns `fromCache:false`; any other
path serves the cached list with `fromCache:true`. -/
def getStories (env : CatalogEnv) (now : Nat) (forceRefresh : Bool)
    (st : CatalogState) : CatalogStep :=
  if env.online && (forceRefresh || !isCacheValid now st) then
    match env.fetchOutcome with
    | some stories => ⟨stories, false, true, true, ⟨stories, some now⟩⟩
    | none => ⟨st.cached, true, true, false, st⟩
  else ⟨st.cached, true, false, false, st⟩

/-- The `API_BASE_URL` constant (`part_009` line 17, `ENV.DEV`). -/
def apiBaseUrl : String := "http://Szymons-MacBook-Pro-2:8000"

/-- Result object of the request gateway: `{success, code?}` (the shapes
the embedded callers actually branch on). -/
structure ApiResult where
  success : Bool
  code : Option String := none
deriving Repr, DecidableEq

/-- The `response.ok` test: status in the 200-299 range. -/
def respOk (status : Nat) : Bool := 200 ≤ status && status < 300

/-- Mutable state touched by the request gateway across one logical call:
number of `fetch`es issued, number of token-refresh attempts, whether the
stored tokens were cleared (`authService.refreshToken` clears them itself
on a failed refresh; `logout` clears them too), and the pending-operation
queue. -/
structure AuthState where
  fetches : Nat := 0
  refreshes : Nat := 0
  tokensCleared : Bool := false
  queue : List QueuedOp := []
deriving Repr, DecidableEq

/-- Environment of a gateway call: connectivity, the HTTP status answered
to the n-th `fetch`, the outcome of the n-th token refresh, and the clock
value used for queueing. -/
structure GatewayEnv where
  online : Bool
  statuses : Nat → Nat
  refreshOk : Nat → Bool
  now : Nat := 0

/-- Embedding of `apiRequest` of the voice service (`part_009` lines 78-165), with an
explicit recursion budget: offline → queue (if queueable) and report
`OFFLINE`; 204 → success; 401 → refresh the token and, when the refresh
succeeds, recurse on the whole call with NO retry guard (line 122); a 401
whose refresh fails falls through to the `!response.ok` throw and is
classified `API_ERROR` by the catch; other non-2xx → `API_ERROR`.
`none` means the call has not completed within `fuel` recursion steps. -/
def apiRequest9 (env : GatewayEnv) (endpoint : String) (opts : ReqOptions) :
    Nat → AuthState → Option ApiResult × AuthState
  | 0, st => (none, st)
  | fuel + 1, st =>
      if !env.online then
        (some ⟨false, some "OFFLINE"⟩,
         { st with queue := queueOperationIfOffline endpoint opts env.now st.queue })
      else
        let status := env.statuses st.fetches
        let st1 := { st with fetches := st.fetches + 1 }
        if status = 204 then (some ⟨true, none⟩, st1)
        else if status = 401 then
          let ok := env.refreshOk st1.refreshes
          let st2 := { st1 with
            refreshes := st1.refreshes + 1
            tokensCleared := st1.tokensCleared || !ok }
          if ok then apiRequest9 env endpoint opts fuel st2
          else (some ⟨false, some "API_ERROR"⟩, st2)
        else if respOk status then (some ⟨true, none⟩, st1)
        else (some ⟨false, some "API_ERROR"⟩, st1)

/-- The `isRetry = true` instance of `authService.apiRequest`
(`authService.js` lines 29-122): a second 401 skips the refresh block and
is thrown as a plain request failure (`API_ERROR`); no further recursion. -/
def apiRequestAuthRetry (env : GatewayEnv) (st : AuthState) : ApiResult × AuthState :=
  if !env.online then (⟨false, some "OFFLINE"⟩, st)
  else
    let status := env.statuses st.fetches
    let st1 := { st with fetches := st.fetches + 1 }
    if status = 204 then (⟨true, none⟩, st1)
    else if respOk status then (⟨true, none⟩, st1)
    else (⟨false, some "API_ERROR"⟩, st1)

/-- Embedding of `authService.apiRequest` entered with `isRetry = false` (`authService.js`
lines 29-122): on a 401, attempt exactly one token refresh; on refresh
success retry once through the `isRetry = true` instance; on refresh
failure, `logout()` (clearing the session) and report `AUTH_ERROR`. -/
def apiRequestAuth (env : GatewayEnv) (st : AuthState) : ApiResult × AuthState :=
  if !env.online then (⟨false, some "OFFLINE"⟩, st)
  else
    let status := env.statuses st.fetches
    let st1 := { st with fetches := st.fetches + 1 }
    if status = 204 then (⟨true, none⟩, st1)
    else if respOk status then (⟨true, none⟩, st1)
    else if status = 401 then
      let ok := env.refreshOk st1.refreshes
      let st2 := { st1 with
        refreshes := st1.refreshes + 1
        tokensCleared := st1.tokensCleared || !ok }
      if ok then apiRequestAuthRetry env st2
      else (⟨false, some "AUTH_ERROR"⟩, { st2 with tokensCleared := true })
    else (⟨false, some "API_ERROR"⟩, st1)

/-- Polling budget: `maxAttempts = 24` (`part_009` line 518). -/
def pollMaxAttempts : Nat := 24

/-- The `while (attempts < maxAttempts)` loop of `pollForAudioAvailability`
(`part_009` lines 520-539), structured on the remaining budget: each
iteration waits 5000 ms, then runs one existence check; a positive check
returns `true` immediately.  `checkRes n` is the `checkResult.success &&
checkResult.exists` value of the n-th check.  Returns (found, number of
checks performed, list of waits performed). -/
def pollAux (checkRes : Nat → Bool) : Nat → Nat → Bool × Nat × List Nat
  | 0, _ => (false, 0, [])
  | remaining + 1, i =>
      if checkRes i then (true, 1, [5000])
      else
        let t := pollAux checkRes remaining (i + 1)
        (t.1, t.2.1 + 1, 5000 :: t.2.2)

/-- Embedding of `pollForAudioAvailability` (`part_009` lines 516-542). -/
def pollForAudioAvailability (checkRes : Nat → Bool) : Bool × Nat × List Nat :=
  pollAux checkRes pollMaxAttempts 0

/-- Result object of `generateStoryAudio`. -/
structure GenResult where
  success : Bool
  code : Option String := none
  audioUrl : Option String := none
deriving Repr, DecidableEq

/-- Environment of one `generateStoryAudio` call: connectivity, the stored
current voice (for the `!voiceId` fallback), the outcome the trigger
`POST` would resolve to when issued online, and the per-attempt poll
outcomes. -/
structure GenEnv where
  online : Bool
  currentVoice : Option String := none
  trigger : ApiResult
  checkRes : Nat → Bool
  now : Nat := 0

/-- Observable outcome of one `generateStoryAudio` call, including the
pending-operation queue after the call and the polling trace. -/
structure GenOutcome where
  result : GenResult
  pollStarted : Bool
  checks : Nat
  sleeps : List Nat
  queue : List QueuedOp
deriving Repr, DecidableEq

/-- Embedding of `generateStoryAudio` (`part_009` lines 442-507): offline → immediate
`OFFLINE` failure (before any gateway call, so the queue is untouched);
empty `voiceId` falls back to the stored current voice; the trigger `POST`
is issued online (hence without queueing); a trigger failure whose code is
not `TIMEOUT` is returned as-is (line 475-477) without polling; otherwise
the bounded poll runs and exhaustion yields `GENERATION_TIMEOUT`. -/
def generateStoryAudio (env : GenEnv) (voiceId storyId : String)
    (queue : List QueuedOp) : GenOutcome :=
  if !env.online then ⟨⟨false, some "OFFLINE", none⟩, false, 0, [], queue⟩
  else
    match (if voiceId = "" then env.currentVoice else some voiceId) with
    | none => ⟨⟨false, some "MISSING_VOICE_ID", none⟩, false, 0, [], queue⟩
    | some v =>
        let r := env.trigger
        if !r.success && r.code ≠ some "TIMEOUT" then
          ⟨⟨false, r.code, none⟩, false, 0, [], queue⟩
        else
          let p := pollForAudioAvailability env.checkRes
          if !p.1 then
            ⟨⟨false, some "GENERATION_TIMEOUT", none⟩, true, p.2.1, p.2.2, queue⟩
          else
            ⟨⟨true, none,
              some (apiBaseUrl ++ "/voices/" ++ v ++ "/stories/" ++ storyId ++
                "/audio?redirect=true")⟩, true, p.2.1, p.2.2, queue⟩

/-- Embedding of `clearVoiceAudio` (`part_009` lines 708-741): delete every backing file
registered under the voice (idempotent delete), then drop the voice's
sub-map; returns the updated registry and the list of file URIs deleted. -/
def clearVoiceAudio (voiceId : String) (reg : Registry) : Registry × List String :=
  match lookupKey voiceId reg with
  | none => (reg, [])
  | some m => (eraseKey voiceId reg, m.filterMap fun p => p.2.localUri)

/-- Environment of one `deleteVoice` call. -/
structure DeleteEnv where
  online : Bool
  currentVoice : Option String := none
  deleteResult : ApiResult := ⟨true, none⟩
  now : Nat := 0

/-- Observable outcome of one `deleteVoice` call. -/
structure DeleteOutcome where
  result : ApiResult
  registry : Registry
  deletedFiles : List String
  voiceStore : Option String
  queue : List QueuedOp
deriving Repr, DecidableEq

/-- Embedding of `deleteVoice` (`part_009` lines 1169-1249): resolve the voice id (the
stored one when the argument is empty); always run the local cleanup
(`clearVoiceAudio` plus `AsyncStorage.removeItem(VOICE_ID)`); when offline,
enqueue the server deletion and report the `OFFLINE_QUEUED` success
variant; when online, issue the `DELETE` through the gateway and mirror its
outcome: success stays success, and an unsuccessful gateway result is
returned as `{success:false, code: result.code || 'DELETE_ERROR'}` (lines
1228-1237) — the `SERVER_DELETE_FAILED` partial-success branch is reachable
only from a thrown exception, which the gateway never produces. -/
def deleteVoice (env : DeleteEnv) (voiceId : String) (reg : Registry)
    (queue : List QueuedOp) : DeleteOutcome :=
  match (if voiceId = "" then env.currentVoice else some voiceId) with
  | none => ⟨⟨false, some "MISSING_VOICE_ID"⟩, reg, [], env.currentVoice, queue⟩
  | some v =>
      let c := clearVoiceAudio v reg
      if !env.online then
        let q := queueOperationIfOffline ("/voices/" ++ v) ⟨some "DELETE"⟩ env.now queue
        ⟨⟨true, some "OFFLINE_QUEUED"⟩, c.1, c.2, none, q⟩
      else
        let r := env.deleteResult
        if r.success then ⟨⟨true, none⟩, c.1, c.2, none, queue⟩
        else ⟨⟨false, some (r.code.getD "DELETE_ERROR")⟩, c.1, c.2, none, queue⟩

/-! ## Supporting lemmas -/

theorem lookupKey_eraseKey_self {β : Type} (k : String) (l : List (String × β)) :
    lookupKey k (eraseKey k l) = none := by
  induction l with
  | nil => rfl
  | cons p rest ih =>
      by_cases h : p.1 = k
      · simpa [eraseKey, h] using ih
      · simpa [eraseKey, lookupKey, h] using ih

theorem lookupKey_setKey_self {β : Type} (k : String) (v : β) (l : List (String × β))
    (h : (lookupKey k l).isSome) : lookupKey k (setKey k v l) = some v := by
  unfold setKey
  rw [if_pos h]
  revert h
  induction l with
  | nil => intro h; simp [lookupKey] at h
  | cons p rest ih =>
      intro h
      by_cases hp : p.1 = k
      · simp [lookupKey, hp]
      · have h' : (lookupKey k rest).isSome := by simpa [lookupKey, hp] using h
        simpa [lookupKey, hp] using ih h'

theorem removeAudioReference_gone (voiceId storyId : String) (reg : Registry) :
    ((lookupKey voiceId (removeAudioReference voiceId storyId reg)).bind
      fun m => lookupKey storyId m) = none := by
  unfold removeAudioReference
  cases hv : lookupKey voiceId reg with
  | none => simp [hv]
  | some m =>
      by_cases hs : (lookupKey storyId m).isSome
      · by_cases he : (eraseKey storyId m).isEmpty
        · simp [hs, he, lookupKey_eraseKey_self]
        · simp [hs, he, lookupKey_setKey_self voiceId (eraseKey storyId m) reg (by simp [hv]),
            lookupKey_eraseKey_self]
      · have hnone : lookupKey storyId m = none := by
          cases h : lookupKey storyId m with
          | none => rfl
          | some _ => rw [h] at hs; simp at hs
        by_cases he : m.isEmpty
        · simp [hs, he, lookupKey_eraseKey_self]
        · simp [hs, he, lookupKey_setKey_self voiceId m reg (by simp [hv]), hnone]

theorem drainPass_eq (net : QueuedOp → Bool) (now : Nat) (queue : List QueuedOp) :
    drainPass net now queue =
      (queue.filter (fun op => !opExpired now op),
       queue.filter (fun op => !opExpired now op && !net op),
       (queue.filter (fun op => !opExpired now op && net op)).length) := by
  induction queue with
  | nil => rfl
  | cons op rest ih =>
      cases hexp : opExpired now op with
      | true => simp [drainPass, hexp, ih]
      | false =>
          cases hnet : net op with
          | true => simp [drainPass, hexp, hnet, ih]
          | false => simp [drainPass, hexp, hnet, ih]

/-- C2: a single drain pass replays exactly the non-expired entries in FIFO
(original) order, discards every entry older than 24 hours without a
network call, removes entries whose replay succeeded, keeps failing entries
in their original relative order, and persists the remaining list after the
full pass (the final stored value, `none` meaning the skipped write for an
empty queue, always denotes exactly the kept entries). -/
theorem processOfflineQueue_fifo_expiry (net : QueuedOp → Bool) (now : Nat)
    (queue : List QueuedOp) :
    (processOfflineQueue net now queue).calls
        = queue.filter (fun op => !opExpired now op) ∧
    (processOfflineQueue net now queue).persisted.getD queue
        = queue.filter (fun op => !opExpired now op && !net op) ∧
    (processOfflineQueue net now queue).processed
        = (queue.filter (fun op => !opExpired now op && net op)).length ∧
    (processOfflineQueue net now queue).remaining.getD queue.length
        = (queue.filter (fun op => !opExpired now op && !net op)).length := by
  unfold processOfflineQueue
  cases queue with
  | nil => simp
  | cons op rest => simp [drainPass_eq]

/-- C8 counterexample: the allow-list check inspects only the endpoint
string, never the HTTP method, and the pattern `/voices` also matches the
read-only `GET /voices` listing call (issued by `verifyVoiceExists`), so a
read-only call is NOT a no-op for the enqueue routine: it is appended to
the persisted queue. -/
theorem queueOperationIfOffline_readonly_enqueued :
    isQueueable "/voices" = true ∧
    queueOperationIfOffline "/voices" ⟨some "GET"⟩ 0 []
      = [⟨"/voices", ⟨some "GET"⟩, 0⟩] := by
  constructor
  · rfl
  · rfl

/-- C8 (amended): every entry the enqueue routine ever appends to the
persisted queue has an endpoint matching the allow-list (as the code
matches it: unanchored, `*` = one path segment), and for a non-matching
endpoint the enqueue is a no-op leaving the queue unchanged.  The matching
is endpoint-only, so the read-only exclusion claimed by the spec does not
hold (see the counterexample). -/
theorem queueOperationIfOffline_allowlist (endpoint : String) (options : ReqOptions)
    (now : Nat) (queue : List QueuedOp) :
    (isQueueable endpoint = false →
      queueOperationIfOffline endpoint options now queue = queue) ∧
    (∀ op ∈ queueOperationIfOffline endpoint options now queue,
      op ∈ queue ∨ (op.endpoint = endpoint ∧ isQueueable endpoint = true)) := by
  unfold queueOperationIfOffline
  cases h : isQueueable endpoint with
  | false =>
      rw [if_neg (by simp [h])]
      exact ⟨fun _ => rfl, fun op hop => Or.inl hop⟩
  | true =>
      rw [if_pos (by simp [h])]
      refine ⟨fun hfalse => (by cases hfalse), ?_⟩
      intro op hop
      rcases List.mem_append.mp hop with hmem | hmem
      · exact Or.inl hmem
      · right
        rcases List.mem_singleton.mp hmem with rfl
        exact ⟨rfl, rfl⟩

theorem queueOperationIfOffline_allowlist_witness :
    (queueOperationIfOffline "/stories" ⟨some "GET"⟩ 7 [] = []) ∧
    ((⟨"/voices/v1", ⟨some "DELETE"⟩, 7⟩ : QueuedOp) ∈
        ([] : List QueuedOp) ∨
      ((⟨"/voices/v1", ⟨some "DELETE"⟩, 7⟩ : QueuedOp).endpoint = "/voices/v1" ∧
        isQueueable "/voices/v1" = true)) :=
  ⟨(queueOperationIfOffline_allowlist "/stories" ⟨some "GET"⟩ 7 []).1 (by rfl),
   (queueOperationIfOffline_allowlist "/voices/v1" ⟨some "DELETE"⟩ 7 []).2
     ⟨"/voices/v1", ⟨some "DELETE"⟩, 7⟩ (by simp [queueOperationIfOffline, isQueueable,
       queueableOperations, reTest, reSearch, reMatch])⟩

/-- C3: (a) whenever `checkAudioExists` answers `exists:true` together with
a `localUri`, the file at that path exists at the moment of the call (the
filesystem oracle is fixed for the duration of one call); (b) when the
registry holds an entry whose backing file has vanished and the device is
offline, the call prunes the registry entry and returns `exists:false`
(and `success:true` — no exception escapes). -/
theorem checkAudioExists_no_stale_positive_and_prunes :
    (∀ (fs : String → Bool) (online headOk : Bool) (voiceId storyId : String)
        (reg : Registry) (u : String),
      (checkAudioExists fs online headOk voiceId storyId reg).1.existsFlag = true →
      (checkAudioExists fs online headOk voiceId storyId reg).1.localUri = some u →
      fs u = true) ∧
    (∀ (fs : String → Bool) (headOk : Bool) (voiceId storyId : String)
        (reg : Registry) (info : AudioInfo) (u : String),
      ((lookupKey voiceId reg).bind fun m => lookupKey storyId m) = some info →
      info.localUri = some u →
      fs u = false →
      (checkAudioExists fs false headOk voiceId storyId reg).1.existsFlag = false ∧
      (checkAudioExists fs false headOk voiceId storyId reg).1.success = true ∧
      ((lookupKey voiceId (checkAudioExists fs false headOk voiceId storyId reg).2).bind
        fun m => lookupKey storyId m) = none) := by
  constructor
  · intro fs online headOk voiceId storyId reg u hex hloc
    cases hlk : (lookupKey voiceId reg).bind (fun m => lookupKey storyId m) with
    | none =>
        cases online with
        | true => simp [checkAudioExists, getStoredAudioInfo, hlk] at hloc
        | false => simp [checkAudioExists, getStoredAudioInfo, hlk] at hloc
    | some info =>
        cases hli : info.localUri with
        | none =>
            cases online with
            | true => simp [checkAudioExists, getStoredAudioInfo, hlk, hli] at hloc
            | false => simp [checkAudioExists, getStoredAudioInfo, hlk, hli] at hloc
        | some uri =>
            cases hfs : fs uri with
            | true =>
                simp [checkAudioExists, getStoredAudioInfo, hlk, hli, hfs] at hloc
                cases hloc
                exact hfs
            | false =>
                cases online with
                | true => simp [checkAudioExists, getStoredAudioInfo, hlk, hli, hfs] at hloc
                | false => simp [checkAudioExists, getStoredAudioInfo, hlk, hli, hfs] at hloc
  · intro fs headOk voiceId storyId reg info u hlk hli hfs
    simp [checkAudioExists, getStoredAudioInfo, hlk, hli, hfs, removeAudioReference_gone]

theorem checkAudioExists_no_stale_positive_and_prunes_witness :
    ((fun u => u == "ok.mp3") "ok.mp3" = true) ∧
    ((checkAudioExists (fun _ => false) false true "v123" "42"
        [("v123", [("42", ⟨some "gone.mp3", 5⟩)])]).1.existsFlag = false ∧
      (checkAudioExists (fun _ => false) false true "v123" "42"
        [("v123", [("42", ⟨some "gone.mp3", 5⟩)])]).1.success = true ∧
      ((lookupKey "v123" (checkAudioExists (fun _ => false) false true "v123" "42"
          [("v123", [("42", ⟨some "gone.mp3", 5⟩)])]).2).bind
        fun m => lookupKey "42" m) = none) :=
  ⟨checkAudioExists_no_stale_positive_and_prunes.1 (fun u => u == "ok.mp3") true true
      "v" "s" [("v", [("s", ⟨some "ok.mp3", 1⟩)])] "ok.mp3" (by rfl) (by rfl),
   checkAudioExists_no_stale_positive_and_prunes.2 (fun _ => false) true "v123" "42"
      [("v123", [("42", ⟨some "gone.mp3", 5⟩)])] ⟨some "gone.mp3", 5⟩ "gone.mp3"
      (by rfl) (by rfl) (by rfl)⟩

theorem pollAux_checks_le (checkRes : Nat → Bool) :
    ∀ n i, (pollAux checkRes n i).2.1 ≤ n := by
  intro n
  induction n with
  | zero => intro i; simp [pollAux]
  | succ n ih =>
      intro i
      by_cases h : checkRes i
      · simp [pollAux, h]
      · simp [pollAux, h]
        exact ih (i + 1)

theorem pollAux_never (checkRes : Nat → Bool) (h : ∀ j, checkRes j = false) :
    ∀ n i, pollAux checkRes n i = (false, n, List.replicate n 5000) := by
  intro n
  induction n with
  | zero => intro i; rfl
  | succ n ih =>
      intro i
      simp [pollAux, h i, ih (i + 1), List.replicate]

/-- C4: the polling loop performs at most 24 existence checks in all cases;
and when the audio never becomes available (every check is negative), a
`generateStoryAudio` call that reaches the polling phase performs exactly
24 checks, each preceded by a 5000 ms wait, and the orchestrator returns
`{success:false, code:'GENERATION_TIMEOUT'}` instead of retrying further. -/
theorem generateStoryAudio_bounded_polling :
    (∀ checkRes : Nat → Bool, (pollForAudioAvailability checkRes).2.1 ≤ 24) ∧
    (∀ (env : GenEnv) (voiceId storyId : String) (queue : List QueuedOp),
      env.online = true →
      (env.trigger.success = true ∨ env.trigger.code = some "TIMEOUT") →
      (∀ j, env.checkRes j = false) →
      voiceId ≠ "" →
      (generateStoryAudio env voiceId storyId queue).result
          = ⟨false, some "GENERATION_TIMEOUT", none⟩ ∧
      (generateStoryAudio env voiceId storyId queue).checks = 24 ∧
      (generateStoryAudio env voiceId storyId queue).sleeps
          = List.replicate 24 5000) := by
  constructor
  · intro checkRes
    exact pollAux_checks_le checkRes pollMaxAttempts 0
  · intro env voiceId storyId queue ho htr hc hv
    have hp := pollAux_never env.checkRes hc 24 0
    rcases htr with h | h
    · simp [generateStoryAudio, pollForAudioAvailability, pollMaxAttempts, ho, hv, h, hp]
    · simp [generateStoryAudio, pollForAudioAvailability, pollMaxAttempts, ho, hv, h, hp]

theorem generateStoryAudio_bounded_polling_witness :
    ((pollForAudioAvailability fun _ => false).2.1 ≤ 24) ∧
    ((generateStoryAudio ⟨true, none, ⟨true, none⟩, fun _ => false, 0⟩ "v123" "42" []).result
        = ⟨false, some "GENERATION_TIMEOUT", none⟩ ∧
      (generateStoryAudio ⟨true, none, ⟨true, none⟩, fun _ => false, 0⟩ "v123" "42" []).checks = 24 ∧
      (generateStoryAudio ⟨true, none, ⟨true, none⟩, fun _ => false, 0⟩ "v123" "42" []).sleeps
        = List.replicate 24 5000) :=
  ⟨generateStoryAudio_bounded_polling.1 (fun _ => false),
   generateStoryAudio_bounded_polling.2 ⟨true, none, ⟨true, none⟩, fun _ => false, 0⟩
     "v123" "42" [] rfl (Or.inl rfl) (fun _ => rfl) (by decide)⟩

/-- C5 counterexample: online, the trigger request fails with code
`API_ERROR` (not `TIMEOUT`) — `generateStoryAudio` returns that failure
immediately and the polling phase is never entered, refuting "proceeds to
the polling phase regardless of the trigger request's result". -/
theorem generateStoryAudio_trigger_abort :
    (generateStoryAudio ⟨true, none, ⟨false, some "API_ERROR"⟩, fun _ => true, 0⟩
        "v123" "42" []).pollStarted = false ∧
    (generateStoryAudio ⟨true, none, ⟨false, some "API_ERROR"⟩, fun _ => true, 0⟩
        "v123" "42" []).checks = 0 ∧
    (generateStoryAudio ⟨true, none, ⟨false, some "API_ERROR"⟩, fun _ => true, 0⟩
        "v123" "42" []).result = ⟨false, some "API_ERROR", none⟩ := by
  refine ⟨rfl, rfl, rfl⟩

/-- C5 (amended): while online, a trigger failure is tolerated only when
its code is `TIMEOUT` — then the flow proceeds to the polling phase; a
trigger failure with any other code aborts the flow, is returned as the
overall result, and no poll check is performed. -/
theorem generateStoryAudio_trigger_tolerance (env : GenEnv)
    (voiceId storyId : String) (queue : List QueuedOp)
    (ho : env.online = true) (hv : voiceId ≠ "")
    (hfail : env.trigger.success = false) :
    (env.trigger.code = some "TIMEOUT" →
      (generateStoryAudio env voiceId storyId queue).pollStarted = true) ∧
    (env.trigger.code ≠ some "TIMEOUT" →
      (generateStoryAudio env voiceId storyId queue).pollStarted = false ∧
      (generateStoryAudio env voiceId storyId queue).checks = 0 ∧
      (generateStoryAudio env voiceId storyId queue).result
          = ⟨false, env.trigger.code, none⟩) := by
  constructor
  · intro hcode
    by_cases hfound : (pollForAudioAvailability env.checkRes).1
    · simp [generateStoryAudio, ho, hv, hfail, hcode, hfound]
    · simp [generateStoryAudio, ho, hv, hfail, hcode, hfound]
  · intro hcode
    refine ⟨?_, ?_, ?_⟩ <;> simp [generateStoryAudio, ho, hv, hfail, hcode]

theorem generateStoryAudio_trigger_tolerance_witness :
    (generateStoryAudio ⟨true, none, ⟨false, some "TIMEOUT"⟩, fun _ => true, 0⟩
        "v123" "42" []).pollStarted = true ∧
    ((generateStoryAudio ⟨true, none, ⟨false, some "API_ERROR"⟩, fun _ => true, 0⟩
        "v9" "7" []).pollStarted = false ∧
      (generateStoryAudio ⟨true, none, ⟨false, some "API_ERROR"⟩, fun _ => true, 0⟩
        "v9" "7" []).checks = 0 ∧
      (generateStoryAudio ⟨true, none, ⟨false, some "API_ERROR"⟩, fun _ => true, 0⟩
        "v9" "7" []).result = ⟨false, some "API_ERROR", none⟩) :=
  ⟨(generateStoryAudio_trigger_tolerance ⟨true, none, ⟨false, some "TIMEOUT"⟩, fun _ => true, 0⟩
      "v123" "42" [] rfl (by decide) rfl).1 rfl,
   (generateStoryAudio_trigger_tolerance ⟨true, none, ⟨false, some "API_ERROR"⟩, fun _ => true, 0⟩
      "v9" "7" [] rfl (by decide) rfl).2 (by decide)⟩

/-- C6 counterexample: device offline, narration requested for story "42"
under voice "v123" — the immediate result does carry code `OFFLINE`, but
the pending-operation queue stays empty: the early connectivity check
returns before the gateway (and hence its queueing path) is ever reached,
even though the narration endpoint does match a queueable pattern. -/
theorem generateStoryAudio_offline_not_queued :
    (generateStoryAudio ⟨false, none, ⟨true, none⟩, fun _ => false, 0⟩
        "v123" "42" []).result.code = some "OFFLINE" ∧
    (generateStoryAudio ⟨false, none, ⟨true, none⟩, fun _ => false, 0⟩
        "v123" "42" []).queue = [] ∧
    isQueueable "/voices/v123/stories/42/audio" = true := by
  refine ⟨rfl, rfl, rfl⟩

/-- C6 (amended): a narration request while offline yields the immediate
`{success:false, code:'OFFLINE'}` result and leaves the offline operation
queue exactly as it was — the request is NOT enqueued, even though its
endpoint `/voices/{voiceId}/stories/{storyId}/audio` matches a queueable
pattern (only calls that reach `apiRequest` and hit `NO_CONNECTION` there
are queued, and `generateStoryAudio` returns before calling it). -/
theorem generateStoryAudio_offline_result (env : GenEnv)
    (voiceId storyId : String) (queue : List QueuedOp)
    (ho : env.online = false) :
    (generateStoryAudio env voiceId storyId queue).result
        = ⟨false, some "OFFLINE", none⟩ ∧
    (generateStoryAudio env voiceId storyId queue).queue = queue ∧
    (generateStoryAudio env voiceId storyId queue).pollStarted = false ∧
    isQueueable "/voices/v123/stories/42/audio" = true := by
  refine ⟨?_, ?_, ?_, rfl⟩ <;> simp [generateStoryAudio, ho]

theorem generateStoryAudio_offline_result_witness :
    (generateStoryAudio ⟨false, none, ⟨true, none⟩, fun _ => false, 0⟩
        "v5" "9" [⟨"/voices", ⟨some "POST"⟩, 1⟩]).result
        = ⟨false, some "OFFLINE", none⟩ ∧
    (generateStoryAudio ⟨false, none, ⟨true, none⟩, fun _ => false, 0⟩
        "v5" "9" [⟨"/voices", ⟨some "POST"⟩, 1⟩]).queue
        = [⟨"/voices", ⟨some "POST"⟩, 1⟩] ∧
    (generateStoryAudio ⟨false, none, ⟨true, none⟩, fun _ => false, 0⟩
        "v5" "9" [⟨"/voices", ⟨some "POST"⟩, 1⟩]).pollStarted = false ∧
    isQueueable "/voices/v123/stories/42/audio" = true :=
  generateStoryAudio_offline_result ⟨false, none, ⟨true, none⟩, fun _ => false, 0⟩
    "v5" "9" [⟨"/voices", ⟨some "POST"⟩, 1⟩] rfl

/-- C7 counterexample: online, server `DELETE` resolves unsuccessfully
(`{success:false, code:'API_ERROR'}`) — `deleteVoice` reports overall
FAILURE (`success:false`), refuting "still reports overall success while
flagging the discrepancy through an error code". -/
theorem deleteVoice_server_fail_reports_failure :
    (deleteVoice ⟨true, none, ⟨false, some "API_ERROR"⟩, 0⟩ "v123"
        [("v123", [("42", ⟨some "a.mp3", 1⟩)])] []).result.success = false ∧
    (deleteVoice ⟨true, none, ⟨false, some "API_ERROR"⟩, 0⟩ "v123"
        [("v123", [("42", ⟨some "a.mp3", 1⟩)])] []).result.code
        = some "API_ERROR" := by
  refine ⟨rfl, rfl⟩

/-- C7 (amended): local cleanup is unconditional — after any `deleteVoice`
call with a non-empty voice id, the current-voice pointer is cleared, the
voice's registry sub-map is gone, and exactly its registered backing files
were deleted; but when the server-side `DELETE` resolves unsuccessfully
while online, `deleteVoice` reports `success:false` carrying the gateway's
error code (`DELETE_ERROR` when the gateway supplied none) — the
`SERVER_DELETE_FAILED` partial-success variant is dead code reachable only
from a thrown exception. -/
theorem deleteVoice_local_cleanup_and_failure (env : DeleteEnv) (voiceId : String)
    (reg : Registry) (queue : List QueuedOp) (hv : voiceId ≠ "") :
    (deleteVoice env voiceId reg queue).voiceStore = none ∧
    lookupKey voiceId (deleteVoice env voiceId reg queue).registry = none ∧
    (deleteVoice env voiceId reg queue).deletedFiles
        = ((lookupKey voiceId reg).getD []).filterMap (fun p => p.2.localUri) ∧
    (env.online = true → env.deleteResult.success = false →
      (deleteVoice env voiceId reg queue).result.success = false ∧
      (deleteVoice env voiceId reg queue).result.code
          = some (env.deleteResult.code.getD "DELETE_ERROR")) := by
  cases hl : lookupKey voiceId reg with
  | none =>
      cases honline : env.online <;> cases hsucc : env.deleteResult.success <;>
        simp [deleteVoice, clearVoiceAudio, hv, hl, honline, hsucc, lookupKey_eraseKey_self]
  | some m =>
      cases honline : env.online <;> cases hsucc : env.deleteResult.success <;>
        simp [deleteVoice, clearVoiceAudio, hv, hl, honline, hsucc, lookupKey_eraseKey_self]

theorem deleteVoice_local_cleanup_and_failure_witness :
    (deleteVoice ⟨true, none, ⟨false, none⟩, 0⟩ "v7"
        [("v7", [("1", ⟨some "b.mp3", 2⟩)])] []).voiceStore = none ∧
    lookupKey "v7" (deleteVoice ⟨true, none, ⟨false, none⟩, 0⟩ "v7"
        [("v7", [("1", ⟨some "b.mp3", 2⟩)])] []).registry = none ∧
    (deleteVoice ⟨true, none, ⟨false, none⟩, 0⟩ "v7"
        [("v7", [("1", ⟨some "b.mp3", 2⟩)])] []).deletedFiles = ["b.mp3"] ∧
    (deleteVoice ⟨true, none, ⟨false, none⟩, 0⟩ "v7"
        [("v7", [("1", ⟨some "b.mp3", 2⟩)])] []).result.success = false ∧
    (deleteVoice ⟨true, none, ⟨false, none⟩, 0⟩ "v7"
        [("v7", [("1", ⟨some "b.mp3", 2⟩)])] []).result.code = some "DELETE_ERROR" :=
  have h := deleteVoice_local_cleanup_and_failure ⟨true, none, ⟨false, none⟩, 0⟩ "v7"
    [("v7", [("1", ⟨some "b.mp3", 2⟩)])] [] (by decide)
  ⟨h.1, h.2.1, h.2.2.1, (h.2.2.2 rfl rfl).1, (h.2.2.2 rfl rfl).2⟩

/-- C9 counterexample: two `getStories(false)` calls 1 second apart, both
online, with the network fetch failing each time and nothing cached yet —
BOTH calls issue a network fetch (the failed first fetch stores no
timestamp, so the second call fetches again), refuting "at most one
network fetch is performed". -/
theorem getStories_double_fetch :
    (getStories ⟨true, none⟩ 0 false ⟨[], none⟩).fetched = true ∧
    (getStories ⟨true, none⟩ 1000 false
        (getStories ⟨true, none⟩ 0 false ⟨[], none⟩).state).fetched = true := by
  refine ⟨rfl, rfl⟩

/-- C9 (amended): for two `getStories(false)` calls within the 24-hour
window of one another, at most one SUCCESSFUL network fetch occurs; and
when the first call's fetch succeeds, the second call issues no network
fetch at all and is served from the cached record written by the first.
(Failed fetch attempts are not bounded: see the counterexample.) -/
theorem getStories_cache_idempotence (env1 env2 : CatalogEnv) (n1 n2 : Nat)
    (st : CatalogState) (hwin : n2 - n1 < cacheExpirationMs) :
    ((getStories env1 n1 false st).fetchedOk.toNat
      + (getStories env2 n2 false (getStories env1 n1 false st).state).fetchedOk.toNat
        ≤ 1) ∧
    ((getStories env1 n1 false st).fetchedOk = true →
      (getStories env2 n2 false (getStories env1 n1 false st).state).fetched = false ∧
      (getStories env2 n2 false (getStories env1 n1 false st).state).fromCache = true ∧
      (getStories env2 n2 false (getStories env1 n1 false st).state).stories
          = (getStories env1 n1 false st).stories) := by
  have hb : ∀ b : Bool, b.toNat ≤ 1 := fun b => by cases b <;> simp
  cases ho1 : env1.online with
  | false =>
      constructor
      · simpa [getStories, ho1] using hb _
      · intro h
        simp [getStories, ho1] at h
  | true =>
      cases hv1 : isCacheValid n1 st with
      | true =>
          constructor
          · simpa [getStories, ho1, hv1] using hb _
          · intro h
            simp [getStories, ho1, hv1] at h
      | false =>
          cases hf1 : env1.fetchOutcome with
          | none =>
              constructor
              · simpa [getStories, ho1, hv1, hf1] using hb _
              · intro h
                simp [getStories, ho1, hv1, hf1] at h
          | some p =>
              have hvalid : isCacheValid n2 ⟨p, some n1⟩ = true := by
                simpa [isCacheValid] using hwin
              constructor
              · simp [getStories, ho1, hv1, hf1, hvalid]
              · intro h
                simp [getStories, ho1, hv1, hf1, hvalid]

theorem getStories_cache_idempotence_witness :
    ((getStories ⟨true, some ["tale"]⟩ 0 false ⟨[], none⟩).fetchedOk.toNat
      + (getStories ⟨true, some ["other"]⟩ 1000 false
          (getStories ⟨true, some ["tale"]⟩ 0 false ⟨[], none⟩).state).fetchedOk.toNat
        ≤ 1) ∧
    ((getStories ⟨true, some ["other"]⟩ 1000 false
        (getStories ⟨true, some ["tale"]⟩ 0 false ⟨[], none⟩).state).fetched = false ∧
      (getStories ⟨true, some ["other"]⟩ 1000 false
        (getStories ⟨true, some ["tale"]⟩ 0 false ⟨[], none⟩).state).fromCache = true ∧
      (getStories ⟨true, some ["other"]⟩ 1000 false
        (getStories ⟨true, some ["tale"]⟩ 0 false ⟨[], none⟩).state).stories
          = (getStories ⟨true, some ["tale"]⟩ 0 false ⟨[], none⟩).stories) :=
  have h := getStories_cache_idempotence ⟨true, some ["tale"]⟩ ⟨true, some ["other"]⟩
    0 1000 ⟨[], none⟩ (by decide)
  ⟨h.1, h.2 rfl⟩

theorem validateVoiceMap_sound (fs : String → Bool) (voiceId : String) :
    ∀ (m : VoiceMap) (reg : Registry), ∀ p ∈ (validateVoiceMap fs voiceId m reg).1,
      ∃ u, p.2.localUri = some u ∧ fs u = true := by
  intro m
  induction m with
  | nil => intro reg p hp; simp [validateVoiceMap] at hp
  | cons e rest ih =>
      intro reg p hp
      obtain ⟨sid, info⟩ := e
      cases hli : info.localUri with
      | none =>
          rw [validateVoiceMap, hli] at hp
          exact ih reg p hp
      | some uri =>
          rw [validateVoiceMap, hli] at hp
          cases hfs : fs uri with
          | true =>
              simp only [hfs, if_true] at hp
              rcases List.mem_cons.mp hp with rfl | hmem
              · exact ⟨uri, hli, hfs⟩
              · exact ih reg p hmem
          | false =>
              simp only [hfs, Bool.false_eq_true, if_false] at hp
              exact ih _ p hp

theorem markStoriesCore_forall2 (va : VoiceMap) (stories : List Story) :
    List.Forall₂ (fun a b => b.id = a.id ∧ b.fields = a.fields ∧
      b.hasLocalAudio = some (lookupKey a.id va).isSome ∧
      b.localAudioUri = (lookupKey a.id va).bind fun i => i.localUri)
      stories (markStoriesCore va stories) := by
  induction stories with
  | nil => simp [markStoriesCore]
  | cons s rest ih =>
      simp only [markStoriesCore, List.map_cons] at ih ⊢
      exact List.Forall₂.cons ⟨rfl, rfl, rfl, rfl⟩ ih

/-- C10: `markStoriesWithLocalAudio` preserves length and order; each
output story keeps the input story's `id` and all other fields unchanged
and only gains `hasLocalAudio` (true exactly when the validated voice map
holds the story's id) and `localAudioUri` (the verified entry's uri, absent
— JavaScript `undefined` — otherwise); the `catch` branch returns the input
list unmodified; and every entry of the validated voice map it consults is
backed by a file that exists. -/
theorem markStoriesWithLocalAudio_frame (lookupOutcome : Except Unit VoiceMap)
    (stories : List Story) :
    (markStoriesWithLocalAudio lookupOutcome stories).length = stories.length ∧
    (∀ va, lookupOutcome = Except.ok va →
      List.Forall₂ (fun a b => b.id = a.id ∧ b.fields = a.fields ∧
        b.hasLocalAudio = some (lookupKey a.id va).isSome ∧
        b.localAudioUri = (lookupKey a.id va).bind fun i => i.localUri)
        stories (markStoriesWithLocalAudio lookupOutcome stories)) ∧
    (∀ e, lookupOutcome = Except.error e →
      markStoriesWithLocalAudio lookupOutcome stories = stories) ∧
    (∀ (fs : String → Bool) (voiceId : String) (reg : Registry),
      ∀ p ∈ (getStoredAudioForVoice fs voiceId reg).1,
        ∃ u, p.2.localUri = some u ∧ fs u = true) := by
  refine ⟨?_, ?_, ?_, ?_⟩
  · cases lookupOutcome with
    | ok va => simp [markStoriesWithLocalAudio, markStoriesCore]
    | error e => rfl
  · intro va hok
    subst hok
    exact markStoriesCore_forall2 va stories
  · intro e herr
    subst herr
    rfl
  · intro fs voiceId reg p hp
    unfold getStoredAudioForVoice at hp
    cases hl : lookupKey voiceId reg with
    | none => rw [hl] at hp; simp at hp
    | some m =>
        rw [hl] at hp
        exact validateVoiceMap_sound fs voiceId m reg p hp

theorem markStoriesWithLocalAudio_frame_witness :
    (markStoriesWithLocalAudio (Except.ok [("42", ⟨some "a.mp3", 1⟩)])
        [⟨"42", [("title", "Tale")], none, none⟩, ⟨"7", [], none, none⟩]).length = 2 ∧
    List.Forall₂ (fun (a b : Story) => b.id = a.id ∧ b.fields = a.fields ∧
        b.hasLocalAudio = some (lookupKey a.id [("42", (⟨some "a.mp3", 1⟩ : AudioInfo))]).isSome ∧
        b.localAudioUri = (lookupKey a.id [("42", (⟨some "a.mp3", 1⟩ : AudioInfo))]).bind
          fun i => i.localUri)
      [⟨"42", [("title", "Tale")], none, none⟩, ⟨"7", [], none, none⟩]
      (markStoriesWithLocalAudio (Except.ok [("42", ⟨some "a.mp3", 1⟩)])
        [⟨"42", [("title", "Tale")], none, none⟩, ⟨"7", [], none, none⟩]) ∧
    markStoriesWithLocalAudio (Except.error ())
        [⟨"42", [("title", "Tale")], none, none⟩, ⟨"7", [], none, none⟩]
      = [⟨"42", [("title", "Tale")], none, none⟩, ⟨"7", [], none, none⟩] ∧
    (∃ u, (("42", (⟨some "a.mp3", 1⟩ : AudioInfo)) : String × AudioInfo).2.localUri
        = some u ∧ (fun v => v == "a.mp3") u = true) :=
  have h := markStoriesWithLocalAudio_frame (Except.ok [("42", ⟨some "a.mp3", 1⟩)])
    [⟨"42", [("title", "Tale")], none, none⟩, ⟨"7", [], none, none⟩]
  have herr := markStoriesWithLocalAudio_frame (Except.error ())
    [⟨"42", [("title", "Tale")], none, none⟩, ⟨"7", [], none, none⟩]
  ⟨h.1, h.2.1 _ rfl, herr.2.2.1 () rfl,
   h.2.2.2 (fun v => v == "a.mp3") "v" [("v", [("42", ⟨some "a.mp3", 1⟩)])]
     ("42", ⟨some "a.mp3", 1⟩) (by decide)⟩

/-- C1 (code-bug evidence): the voice-service gateway `apiRequest`
(`part_009`) has no retry guard.  (i) Against a server that answers 401 to
every attempt while every token refresh succeeds, the call performs one
refresh per recursion step and never completes within any recursion budget
— i.e. one refresh/retry per 401 without bound, not "exactly one refresh
and one retry"; (ii) when the refresh fails, the call reports `API_ERROR`,
not the claimed `AUTH_ERROR` (the stored tokens are cleared, but by
`refreshToken` itself).  The `authService.js` variant of `apiRequest`
(embedded as `apiRequestAuth`) does implement the claimed behavior. -/
theorem apiRequest9_unbounded_401_refresh :
    (∀ (endpoint : String) (opts : ReqOptions) (fuel : Nat) (st : AuthState),
      (apiRequest9 ⟨true, fun _ => 401, fun _ => true, 0⟩ endpoint opts fuel st).1
          = none ∧
      (apiRequest9 ⟨true, fun _ => 401, fun _ => true, 0⟩ endpoint opts fuel st).2.refreshes
          = st.refreshes + fuel) ∧
    ((apiRequest9 ⟨true, fun _ => 401, fun _ => false, 0⟩ "/stories" ⟨none⟩ 5
        ⟨0, 0, false, []⟩).1 = some ⟨false, some "API_ERROR"⟩ ∧
      (apiRequest9 ⟨true, fun _ => 401, fun _ => false, 0⟩ "/stories" ⟨none⟩ 5
        ⟨0, 0, false, []⟩).2.refreshes = 1 ∧
      (apiRequest9 ⟨true, fun _ => 401, fun _ => false, 0⟩ "/stories" ⟨none⟩ 5
        ⟨0, 0, false, []⟩).2.tokensCleared = true) := by
  constructor
  · intro endpoint opts fuel
    induction fuel with
    | zero => intro st; exact ⟨rfl, rfl⟩
    | succ n ih =>
        intro st
        have h := ih { st with fetches := st.fetches + 1, refreshes := st.refreshes + 1 }
        constructor
        · simpa [apiRequest9] using h.1
        · simp only [apiRequest9]
          norm_num
          rw [h.2]
          simp
          omega
  · refine ⟨rfl, rfl, rfl⟩

/-- The `authService.js` gateway, by contrast: any call performs at most
two fetches and at most one token refresh (the `isRetry` guard), and a 401
whose refresh fails yields `AUTH_ERROR` with the session cleared. -/
theorem apiRequestAuth_single_retry (env : GatewayEnv) (st : AuthState) :
    (apiRequestAuth env st).2.fetches ≤ st.fetches + 2 ∧
    (apiRequestAuth env st).2.refreshes ≤ st.refreshes + 1 ∧
    (env.online = true → env.statuses st.fetches = 401 →
      env.refreshOk st.refreshes = false →
      (apiRequestAuth env st).1 = ⟨false, some "AUTH_ERROR"⟩ ∧
      (apiRequestAuth env st).2.tokensCleared = true) := by
  simp only [apiRequestAuth, apiRequestAuthRetry]
  refine ⟨?_, ?_, ?_⟩
  · split_ifs <;> simp
  · split_ifs <;> simp
  · intro ho hs hr
    simp [ho, hs, hr, respOk]
